import Mathlib

/-!
# Verification of the Gmail MCP server (`src/gmail_mcp/server.py`)

This file embeds the data model and the operations of the Gmail MCP server in
Lean 4 and proves the behavioural claims about it.

Conventions of the embedding:
* Bytes and Unicode code points are `Nat` (with explicit bounds where they
  matter).
* Python dictionaries whose exact key set matters (`arguments`, the message
  payload JSON) are association lists / `Option`-valued fields; a direct
  `d[k]` access on a missing key is a `KeyError`, embedded as the
  `missingArgumentError` failure.
* The remote Gmail service, the Google credential machinery, the Python
  `base64` and `email.mime.text` standard-library routines are collaborators
  that are not part of the repository; they are modelled explicitly below,
  each with a documentation comment saying what it models.
* Every fallible operation returns `Except Err α`; handlers additionally
  return the list of externally visible events (network round-trips, token
  file writes, mail-service calls) they perform, in order.
-/

namespace GmailMcp

/-! ## URL-safe base64 (models Python `base64.urlsafe_b64encode` / `urlsafe_b64decode`) -/

/-- Models the URL-safe base64 alphabet: value `n < 64` to its character
(`A`–`Z`, `a`–`z`, `0`–`9`, `-`, `_`). -/
def sextetChar (n : Nat) : Char :=
  if n < 26 then Char.ofNat (65 + n)
  else if n < 52 then Char.ofNat (97 + (n - 26))
  else if n < 62 then Char.ofNat (48 + (n - 52))
  else if n = 62 then '-'
  else '_'

/-- Models the inverse alphabet lookup of Python's base64 decoder after the
URL-safe translation step: `urlsafe_b64decode` translates `-`/`_` to `+`/`/`
and then decodes with the standard alphabet, so both alphabets' digit
characters are accepted. -/
def sextet? (c : Char) : Option Nat :=
  if 65 ≤ c.toNat ∧ c.toNat ≤ 90 then some (c.toNat - 65)
  else if 97 ≤ c.toNat ∧ c.toNat ≤ 122 then some (c.toNat - 97 + 26)
  else if 48 ≤ c.toNat ∧ c.toNat ≤ 57 then some (c.toNat - 48 + 52)
  else if c = '-' ∨ c = '+' then some 62
  else if c = '_' ∨ c = '/' then some 63
  else none

/-- Characters kept by Python's base64 decoder; all others are discarded
before decoding (`validate=False`, the default used by the server). -/
def b64Keep (c : Char) : Bool :=
  (sextet? c).isSome || c = '='

/-- Models `base64.urlsafe_b64encode` on a byte sequence: three bytes become
four alphabet characters, a final group of one or two bytes is padded
with `=`. -/
def b64urlEncode : List Nat → List Char
  | [] => []
  | [b1] => [sextetChar (b1 / 4), sextetChar (b1 % 4 * 16), '=', '=']
  | [b1, b2] =>
      [sextetChar (b1 / 4), sextetChar (b1 % 4 * 16 + b2 / 16),
       sextetChar (b2 % 16 * 4), '=']
  | b1 :: b2 :: b3 :: rest =>
      sextetChar (b1 / 4) :: sextetChar (b1 % 4 * 16 + b2 / 16) ::
      sextetChar (b2 % 16 * 4 + b3 / 64) :: sextetChar (b3 % 64) ::
      b64urlEncode rest

/-- Decodes groups of four base64 characters into bytes (`=`-padding allowed
only in the final group); any other shape is a `binascii` error, embedded
as `none`. -/
def b64DecodeGroups : List Char → Option (List Nat)
  | [] => some []
  | c1 :: c2 :: c3 :: c4 :: rest =>
      match sextet? c1, sextet? c2 with
      | some s1, some s2 =>
        if c3 = '=' then
          if c4 = '=' ∧ rest = [] then some [s1 * 4 + s2 / 16] else none
        else
          match sextet? c3 with
          | some s3 =>
            if c4 = '=' then
              if rest = [] then
                some [s1 * 4 + s2 / 16, s2 % 16 * 16 + s3 / 4]
              else none
            else
              match sextet? c4 with
              | some s4 =>
                match b64DecodeGroups rest with
                | some bs =>
                    some ((s1 * 4 + s2 / 16) :: (s2 % 16 * 16 + s3 / 4) ::
                          (s3 % 4 * 64 + s4) :: bs)
                | none => none
              | none => none
          | none => none
      | _, _ => none
  | _ => none

/-- Models `base64.urlsafe_b64decode`: discard foreign characters, then
decode four-character groups. -/
def b64urlDecode (s : List Char) : Option (List Nat) :=
  b64DecodeGroups (s.filter b64Keep)

theorem sextet_sextetChar : ∀ s : Nat, s < 64 → sextet? (sextetChar s) = some s := by
  decide

theorem sextetChar_ne_pad : ∀ s : Nat, s < 64 → sextetChar s ≠ '=' := by
  decide

theorem b64Keep_sextetChar (s : Nat) (h : s < 64) : b64Keep (sextetChar s) = true := by
  simp [b64Keep, sextet_sextetChar s h]

theorem b64Keep_pad : b64Keep '=' = true := by decide

/-- The encoder only emits alphabet characters and padding, so the decoder's
discarding filter leaves its output unchanged. -/
theorem filter_b64urlEncode (bs : List Nat) (h : ∀ b ∈ bs, b < 256) :
    (b64urlEncode bs).filter b64Keep = b64urlEncode bs := by
  induction bs using b64urlEncode.induct with
  | case1 => simp [b64urlEncode]
  | case2 b1 =>
      have h1 : b1 < 256 := h b1 (by simp)
      simp [b64urlEncode, List.filter,
        b64Keep_sextetChar (b1 / 4) (by omega),
        b64Keep_sextetChar (b1 % 4 * 16) (by omega), b64Keep_pad]
  | case3 b1 b2 =>
      have h1 : b1 < 256 := h b1 (by simp)
      have h2 : b2 < 256 := h b2 (by simp)
      simp [b64urlEncode, List.filter,
        b64Keep_sextetChar (b1 / 4) (by omega),
        b64Keep_sextetChar (b1 % 4 * 16 + b2 / 16) (by omega),
        b64Keep_sextetChar (b2 % 16 * 4) (by omega), b64Keep_pad]
  | case4 b1 b2 b3 rest ih =>
      have h1 : b1 < 256 := h b1 (by simp)
      have h2 : b2 < 256 := h b2 (by simp)
      have h3 : b3 < 256 := h b3 (by simp)
      have hr : ∀ b ∈ rest, b < 256 := fun b hb => h b (by simp [hb])
      simp [b64urlEncode, List.filter,
        b64Keep_sextetChar (b1 / 4) (by omega),
        b64Keep_sextetChar (b1 % 4 * 16 + b2 / 16) (by omega),
        b64Keep_sextetChar (b2 % 16 * 4 + b3 / 64) (by omega),
        b64Keep_sextetChar (b3 % 64) (by omega), ih hr]

theorem b64DecodeGroups_b64urlEncode (bs : List Nat) (h : ∀ b ∈ bs, b < 256) :
    b64DecodeGroups (b64urlEncode bs) = some bs := by
  induction bs using b64urlEncode.induct with
  | case1 => simp [b64urlEncode, b64DecodeGroups]
  | case2 b1 =>
      have h1 : b1 < 256 := h b1 (by simp)
      simp [b64urlEncode, b64DecodeGroups,
        sextet_sextetChar (b1 / 4) (by omega),
        sextet_sextetChar (b1 % 4 * 16) (by omega)]
      omega
  | case3 b1 b2 =>
      have h1 : b1 < 256 := h b1 (by simp)
      have h2 : b2 < 256 := h b2 (by simp)
      simp [b64urlEncode, b64DecodeGroups,
        sextet_sextetChar (b1 / 4) (by omega),
        sextet_sextetChar (b1 % 4 * 16 + b2 / 16) (by omega),
        sextet_sextetChar (b2 % 16 * 4) (by omega),
        sextetChar_ne_pad (b2 % 16 * 4) (by omega)]
      omega
  | case4 b1 b2 b3 rest ih =>
      have h1 : b1 < 256 := h b1 (by simp)
      have h2 : b2 < 256 := h b2 (by simp)
      have h3 : b3 < 256 := h b3 (by simp)
      have hr : ∀ b ∈ rest, b < 256 := fun b hb => h b (by simp [hb])
      simp [b64urlEncode, b64DecodeGroups,
        sextet_sextetChar (b1 / 4) (by omega),
        sextet_sextetChar (b1 % 4 * 16 + b2 / 16) (by omega),
        sextet_sextetChar (b2 % 16 * 4 + b3 / 64) (by omega),
        sextet_sextetChar (b3 % 64) (by omega),
        sextetChar_ne_pad (b2 % 16 * 4 + b3 / 64) (by omega),
        sextetChar_ne_pad (b3 % 64) (by omega), ih hr]
      omega

/-- Encoding then decoding a byte sequence gives it back. -/
theorem b64url_roundtrip (bs : List Nat) (h : ∀ b ∈ bs, b < 256) :
    b64urlDecode (b64urlEncode bs) = some bs := by
  rw [b64urlDecode, filter_b64urlEncode bs h, b64DecodeGroups_b64urlEncode bs h]

/-! ## UTF-8 (models Python `str.encode("utf-8")` / `bytes.decode("utf-8")`) -/

/-- A Unicode scalar value (what Python text and Lean `Char` hold):
outside the surrogate range and below `0x110000`. -/
abbrev isScalar (c : Nat) : Prop := c < 0xD800 ∨ (0xE000 ≤ c ∧ c < 0x110000)

/-- Models the UTF-8 encoding of one code point (1–4 bytes). -/
def utf8EncodeChar (c : Nat) : List Nat :=
  if c < 0x80 then [c]
  else if c < 0x800 then [0xC0 + c / 64, 0x80 + c % 64]
  else if c < 0x10000 then [0xE0 + c / 4096, 0x80 + c / 64 % 64, 0x80 + c % 64]
  else [0xF0 + c / 262144, 0x80 + c / 4096 % 64, 0x80 + c / 64 % 64, 0x80 + c % 64]

/-- Models UTF-8 encoding of a code-point sequence. -/
def utf8Encode (cs : List Nat) : List Nat :=
  (cs.map utf8EncodeChar).flatten

/-- Is `b` a UTF-8 continuation byte? -/
def isCont (b : Nat) : Bool := 0x80 ≤ b && b < 0xC0

/-- Code point of a two-byte UTF-8 sequence. -/
def dec2 (b1 b2 : Nat) : Nat := (b1 - 0xC0) * 64 + (b2 - 0x80)

/-- Code point of a three-byte UTF-8 sequence. -/
def dec3 (b1 b2 b3 : Nat) : Nat := (b1 - 0xE0) * 4096 + (b2 - 0x80) * 64 + (b3 - 0x80)

/-- Code point of a four-byte UTF-8 sequence. -/
def dec4 (b1 b2 b3 b4 : Nat) : Nat :=
  (b1 - 0xF0) * 262144 + (b2 - 0x80) * 4096 + (b3 - 0x80) * 64 + (b4 - 0x80)

/-- A three-byte sequence must not be overlong and must not be a surrogate. -/
def valid3 (c : Nat) : Bool := 0x800 ≤ c && !(0xD800 ≤ c && c < 0xE000)

/-- A four-byte sequence must not be overlong and must stay below `0x110000`. -/
def valid4 (c : Nat) : Bool := 0x10000 ≤ c && c < 0x110000

/-- Models strict UTF-8 decoding of one code point (as Python's
`bytes.decode("utf-8")` does per scalar): rejects stray continuation bytes,
truncated sequences, overlong encodings, surrogates and code points beyond
`0x10FFFF`; on success returns the code point and the remaining bytes. -/
def utf8DecodeOne : List Nat → Option (Nat × List Nat)
  | [] => none
  | b1 :: rest =>
    if b1 < 0x80 then some (b1, rest)
    else if b1 < 0xC2 then none
    else if b1 < 0xE0 then
      match rest with
      | b2 :: rest2 => if isCont b2 then some (dec2 b1 b2, rest2) else none
      | [] => none
    else if b1 < 0xF0 then
      match rest with
      | b2 :: b3 :: rest2 =>
        if isCont b2 && isCont b3 && valid3 (dec3 b1 b2 b3) then
          some (dec3 b1 b2 b3, rest2)
        else none
      | _ => none
    else if b1 < 0xF5 then
      match rest with
      | b2 :: b3 :: b4 :: rest2 =>
        if isCont b2 && isCont b3 && isCont b4 && valid4 (dec4 b1 b2 b3 b4) then
          some (dec4 b1 b2 b3 b4, rest2)
        else none
      | _ => none
    else none

/-- Decoding loop with explicit fuel; one unit of fuel is spent per decoded
code point, so `bs.length` fuel always suffices. -/
def utf8DecodeF : Nat → List Nat → Option (List Nat)
  | _, [] => some []
  | 0, _ :: _ => none
  | f + 1, b :: rest =>
    match utf8DecodeOne (b :: rest) with
    | some (c, rest2) => (utf8DecodeF f rest2).map (c :: ·)
    | none => none

/-- Models strict UTF-8 decoding of a byte sequence into code points. -/
def utf8Decode (bs : List Nat) : Option (List Nat) := utf8DecodeF bs.length bs

theorem utf8EncodeChar_lt_256 (c : Nat) (h : c < 0x110000) :
    ∀ b ∈ utf8EncodeChar c, b < 256 := by
  intro b hb
  unfold utf8EncodeChar at hb
  split at hb
  · simp at hb; omega
  · split at hb
    · simp at hb; rcases hb with hb | hb <;> omega
    · split at hb
      · simp at hb; rcases hb with hb | hb | hb <;> omega
      · simp at hb; rcases hb with hb | hb | hb | hb <;> omega

theorem utf8Encode_lt_256 (cs : List Nat) (h : ∀ c ∈ cs, c < 0x110000) :
    ∀ b ∈ utf8Encode cs, b < 256 := by
  intro b hb
  simp only [utf8Encode, List.mem_flatten, List.mem_map] at hb
  obtain ⟨l, ⟨c, hc, rfl⟩, hbl⟩ := hb
  exact utf8EncodeChar_lt_256 c (h c hc) b hbl

theorem utf8DecodeOne_encodeChar (c : Nat) (h : isScalar c) (bs : List Nat) :
    utf8DecodeOne (utf8EncodeChar c ++ bs) = some (c, bs) := by
  by_cases h1 : c < 0x80
  · simp only [utf8EncodeChar, if_pos h1, List.cons_append, List.nil_append]
    rw [utf8DecodeOne.eq_def]
    simp only [if_pos h1]
  · by_cases h2 : c < 0x800
    · simp only [utf8EncodeChar, if_neg h1, if_pos h2, List.cons_append, List.nil_append]
      rw [utf8DecodeOne.eq_def]
      have e4 : isCont (0x80 + c % 64) = true := by simp [isCont]; omega
      simp only [if_neg (by omega : ¬(0xC0 + c / 64 < 0x80)),
        if_neg (by omega : ¬(0xC0 + c / 64 < 0xC2)),
        if_pos (by omega : 0xC0 + c / 64 < 0xE0), e4, if_pos]
      have e5 : dec2 (0xC0 + c / 64) (0x80 + c % 64) = c := by unfold dec2; omega
      rw [e5]
    · by_cases h3 : c < 0x10000
      · simp only [utf8EncodeChar, if_neg h1, if_neg h2, if_pos h3, List.cons_append,
          List.nil_append]
        rw [utf8DecodeOne.eq_def]
        have ed : dec3 (0xE0 + c / 4096) (0x80 + c / 64 % 64) (0x80 + c % 64) = c := by
          unfold dec3; omega
        have e5 : isCont (0x80 + c / 64 % 64) = true := by simp [isCont]; omega
        have e6 : isCont (0x80 + c % 64) = true := by simp [isCont]; omega
        have e7 : valid3 c = true := by
          simp [valid3]; rcases h with h | h <;> omega
        simp only [if_neg (by omega : ¬(0xE0 + c / 4096 < 0x80)),
          if_neg (by omega : ¬(0xE0 + c / 4096 < 0xC2)),
          if_neg (by omega : ¬(0xE0 + c / 4096 < 0xE0)),
          if_pos (by omega : 0xE0 + c / 4096 < 0xF0),
          e5, e6, Bool.and_self, if_pos, ed]
        simp [e7]
      · have h4 : c < 0x110000 := by rcases h with h | h <;> omega
        simp only [utf8EncodeChar, if_neg h1, if_neg h2, if_neg h3, List.cons_append,
          List.nil_append]
        rw [utf8DecodeOne.eq_def]
        have ed : dec4 (0xF0 + c / 262144) (0x80 + c / 4096 % 64) (0x80 + c / 64 % 64)
            (0x80 + c % 64) = c := by unfold dec4; omega
        have e6 : isCont (0x80 + c / 4096 % 64) = true := by simp [isCont]; omega
        have e7 : isCont (0x80 + c / 64 % 64) = true := by simp [isCont]; omega
        have e8 : isCont (0x80 + c % 64) = true := by simp [isCont]; omega
        have e9 : valid4 c = true := by simp [valid4]; omega
        simp only [if_neg (by omega : ¬(0xF0 + c / 262144 < 0x80)),
          if_neg (by omega : ¬(0xF0 + c / 262144 < 0xC2)),
          if_neg (by omega : ¬(0xF0 + c / 262144 < 0xE0)),
          if_neg (by omega : ¬(0xF0 + c / 262144 < 0xF0)),
          if_pos (by omega : 0xF0 + c / 262144 < 0xF5),
          e6, e7, e8, Bool.and_self, if_pos, ed]
        simp [e9]

theorem utf8EncodeChar_ne_nil (c : Nat) : utf8EncodeChar c ≠ [] := by
  unfold utf8EncodeChar
  split_ifs <;> simp

theorem utf8DecodeF_encode (cs : List Nat) (h : ∀ c ∈ cs, isScalar c) :
    ∀ f : Nat, (utf8Encode cs).length ≤ f → utf8DecodeF f (utf8Encode cs) = some cs := by
  induction cs with
  | nil => intro f _; simp [utf8Encode, utf8DecodeF]
  | cons c cs ih =>
      intro f hf
      have hc : isScalar c := h c (by simp)
      have hcs : ∀ x ∈ cs, isScalar x := fun x hx => h x (by simp [hx])
      have henc : utf8Encode (c :: cs) = utf8EncodeChar c ++ utf8Encode cs := by
        simp [utf8Encode]
      obtain ⟨b, t, hbt⟩ : ∃ b t, utf8EncodeChar c = b :: t := by
        cases hx : utf8EncodeChar c with
        | nil => exact absurd hx (utf8EncodeChar_ne_nil c)
        | cons b t => exact ⟨b, t, rfl⟩
      rw [henc] at hf ⊢
      have hlen : 1 + (utf8Encode cs).length ≤ f := by
        rw [hbt] at hf; simp at hf; omega
      obtain ⟨f', rfl⟩ : ∃ f', f = f' + 1 := ⟨f - 1, by omega⟩
      rw [hbt, List.cons_append, utf8DecodeF]
      rw [← List.cons_append, ← hbt, utf8DecodeOne_encodeChar c hc]
      simp only
      rw [ih hcs f' (by omega)]
      simp

/-- Encoding then decoding a sequence of Unicode scalar values gives it back. -/
theorem utf8_roundtrip (cs : List Nat) (h : ∀ c ∈ cs, isScalar c) :
    utf8Decode (utf8Encode cs) = some cs :=
  utf8DecodeF_encode cs h _ le_rfl

/-! ## Strings as code-point sequences -/

/-- The code points of a string. -/
def strCodes (s : String) : List Nat := s.data.map Char.toNat

/-- The string with the given code points (every code point of a Lean `Char`
is a valid scalar value, so this is only applied to valid scalars). -/
def strOfCodes (cs : List Nat) : String := String.mk (cs.map Char.ofNat)

theorem strOfCodes_strCodes (s : String) : strOfCodes (strCodes s) = s := by
  cases s with
  | mk data =>
      simp [strOfCodes, strCodes, List.map_map, Function.comp_def, Char.ofNat_toNat]

theorem char_isScalar (ch : Char) : isScalar ch.toNat := by
  have h := ch.valid
  simp only [UInt32.isValidChar, Nat.isValidChar, Char.toNat] at *
  rcases h with h | h
  · left; omega
  · right; omega

theorem strCodes_isScalar (s : String) : ∀ c ∈ strCodes s, isScalar c := by
  intro c hc
  obtain ⟨ch, _, rfl⟩ := List.mem_map.1 hc
  exact char_isScalar ch

theorem strCodes_lt (s : String) : ∀ c ∈ strCodes s, c < 0x110000 := by
  intro c hc
  rcases strCodes_isScalar s c hc with h | h
  · omega
  · omega

theorem strCodes_append (a b : String) : strCodes (a ++ b) = strCodes a ++ strCodes b := by
  simp [strCodes, String.data_append]

theorem mem_strCodes_ten {s : String} (h : (10 : Nat) ∈ strCodes s) : '\n' ∈ s.data := by
  obtain ⟨c, hc, he⟩ := List.mem_map.1 h
  have : c = '\n' := by
    have h1 : Char.ofNat c.toNat = Char.ofNat 10 := by rw [he]
    rwa [Char.ofNat_toNat] at h1
  rwa [this] at hc

/-! ## MIME message construction and its inverse -/

/-- Modelled from the spec: `_send_email` constructs the message with Python's
`email.mime.text.MIMEText` and serializes it with `as_bytes()`, which is
standard-library code outside this repository ("constructs a MIME text
message, base64url-encodes the raw bytes").  The model keeps exactly the
observable structure the claims rely on — a `to` header line, a `subject`
header line, a blank separator line, then the body — serialized as UTF-8
bytes; the fixed protocol headers (Content-Type, MIME-Version, ...) are
abstracted away. -/
def mime_as_bytes (toAddr subject body : String) : List Nat :=
  utf8Encode (strCodes ("to: " ++ toAddr ++ "\nsubject: " ++ subject ++ "\n\n" ++ body))

/-- Splits the code points before the first newline (code point 10) from the
ones after it. -/
def takeLine : List Nat → List Nat × List Nat
  | [] => ([], [])
  | c :: rest =>
    if c = 10 then ([], rest)
    else ((c :: (takeLine rest).1), (takeLine rest).2)

theorem takeLine_append (xs rest : List Nat) (h : (10 : Nat) ∉ xs) :
    takeLine (xs ++ 10 :: rest) = (xs, rest) := by
  induction xs with
  | nil => simp [takeLine]
  | cons x xs ih =>
      have hx : x ≠ 10 := fun hx => h (by simp [hx])
      have h2 : (10 : Nat) ∉ xs := fun h2 => h (by simp [h2])
      simp [takeLine, hx, ih h2]

/-- Removes the given header-name run of code points from the front. -/
def headerValue (p xs : List Nat) : Option (List Nat) :=
  if p.isPrefixOf xs then some (xs.drop p.length) else none

theorem headerValue_append (p r : List Nat) : headerValue p (p ++ r) = some r := by
  simp [headerValue, List.isPrefixOf_iff_prefix, List.prefix_append, List.drop_left]

/-- Accepts the blank separator line and returns the body code points. -/
def afterBlankLine : List Nat → Option (List Nat)
  | 10 :: bodyRest => some bodyRest
  | _ => none

/-- Parses the serialized MIME message back: decode the UTF-8 bytes, read the
`to` header line, the `subject` header line, the blank separator line, and
take the remainder as the body. -/
def mimeParse (bs : List Nat) : Option (String × String × String) :=
  (utf8Decode bs).bind fun cps =>
    (headerValue (strCodes "to: ") (takeLine cps).1).bind fun t =>
      (headerValue (strCodes "subject: ") (takeLine (takeLine cps).2).1).bind fun s =>
        (afterBlankLine (takeLine (takeLine cps).2).2).map fun b =>
          (strOfCodes t, strOfCodes s, strOfCodes b)

/-- The serialized MIME message determines `to`, `subject` and the body:
parsing the raw bytes recovers the three fields verbatim (header values must
not themselves contain a newline). -/
theorem mimeParse_mime_as_bytes (toAddr subject body : String)
    (hto : '\n' ∉ toAddr.data) (hsub : '\n' ∉ subject.data) :
    mimeParse (mime_as_bytes toAddr subject body) = some (toAddr, subject, body) := by
  have hdec : utf8Decode (utf8Encode
      (strCodes ("to: " ++ toAddr ++ "\nsubject: " ++ subject ++ "\n\n" ++ body))) =
      some (strCodes ("to: " ++ toAddr ++ "\nsubject: " ++ subject ++ "\n\n" ++ body)) :=
    utf8_roundtrip _ (strCodes_isScalar _)
  have hsplit : strCodes ("to: " ++ toAddr ++ "\nsubject: " ++ subject ++ "\n\n" ++ body) =
      (strCodes "to: " ++ strCodes toAddr) ++ 10 ::
      ((strCodes "subject: " ++ strCodes subject) ++ 10 :: (10 :: strCodes body)) := by
    have h1 : ("\nsubject: " : String) = "\n" ++ "subject: " := by rfl
    have h2 : ("\n\n" : String) = "\n" ++ "\n" := by rfl
    rw [show ("to: " ++ toAddr ++ "\nsubject: " ++ subject ++ "\n\n" ++ body : String) =
      "to: " ++ (toAddr ++ ("\nsubject: " ++ (subject ++ ("\n\n" ++ body)))) by
        simp [String.append_assoc], h1, h2]
    simp only [strCodes_append, List.append_assoc]
    rfl
  have hto10 : (10 : Nat) ∉ strCodes "to: " ++ strCodes toAddr := by
    intro hmem
    rcases List.mem_append.1 hmem with hmem | hmem
    · revert hmem; decide
    · exact hto (mem_strCodes_ten hmem)
  have hsub10 : (10 : Nat) ∉ strCodes "subject: " ++ strCodes subject := by
    intro hmem
    rcases List.mem_append.1 hmem with hmem | hmem
    · revert hmem; decide
    · exact hsub (mem_strCodes_ten hmem)
  simp only [mimeParse, mime_as_bytes]
  rw [hdec, hsplit]
  simp only [Option.some_bind, takeLine_append _ _ hto10, takeLine_append _ _ hsub10,
    headerValue_append, afterBlankLine]
  simp [strOfCodes_strCodes]

/-! ## Data model of the server -/

/-- A JSON-ish argument value as it arrives in the `arguments` mapping of a
tool call (the four schemas only use string and integer fields). -/
inductive Value where
  | str (s : String)
  | int (n : Int)
deriving DecidableEq

/-- The `arguments` mapping of a tool call: a string-keyed dictionary,
embedded as an association list (`lookup` = Python `dict` access). -/
abbrev Args := List (String × Value)

/-- The failure taxonomy of the server.  `configurationError` is the
`FileNotFoundError` of `get_gmail_service`; `missingArgumentError` is the
`KeyError` of a direct dictionary access; `unknownToolError` is the
`ValueError` of the dispatcher; `remoteServiceError` wraps a failed remote
call; `decodeError`/`typeError` are the unguarded decode/type faults of the
Python runtime. -/
inductive Err where
  | configurationError (msg : String)
  | authExpiredError
  | unknownToolError (name : String)
  | missingArgumentError (field : String)
  | remoteServiceError (msg : String)
  | decodeError (msg : String)
  | typeError (msg : String)
deriving DecidableEq

/-- One `{"name": ..., "value": ...}` entry of a message's `headers` array. -/
structure Header where
  name : String
  value : String
deriving DecidableEq

/-- A Gmail API message payload as the server reads it: `mimeType`,
`headers`, an optional `body` object whose `data` field is itself optional
(base64url text), and an optional `parts` array of nested payloads.
`none` means the JSON key is absent. -/
inductive Payload where
  | mk (mimeType : String) (headers : List Header) (body : Option (Option String))
      (parts : Option (List Payload))

def Payload.mimeType : Payload → String
  | .mk m _ _ _ => m

def Payload.headers : Payload → List Header
  | .mk _ h _ _ => h

def Payload.body : Payload → Option (Option String)
  | .mk _ _ b _ => b

def Payload.parts : Payload → Option (List Payload)
  | .mk _ _ _ p => p

/-- A remote message: its id and its payload. -/
structure Message where
  id : String
  payload : Payload

/-- A Gmail label. -/
structure Label where
  id : String
  name : String

/-- Externally visible events of one tool call, in order: network
round-trips of the credential machinery, token-file writes, and the four
mail-service calls of the Mail Client Facade. -/
inductive Event where
  | refreshCall
  | authFlow
  | tokenWrite
  | mailList (q : Value)
  | mailGet (id : String)
  | mailSend (raw : List Char)
  | mailLabels
deriving DecidableEq

/-- Is this event a Mail Client Facade (mail-service) call? -/
def Event.isMail : Event → Bool
  | .mailList _ => true
  | .mailGet _ => true
  | .mailSend _ => true
  | .mailLabels => true
  | _ => false

/-- Modelled remote Gmail service reachable once a session exists:
`matching q` is the remote's match list for a search query (in remote order),
`mailbox` resolves `messages.get` by id, `labels` is the remote label
listing, and `sentId` is the id the remote assigns to a sent message. -/
structure Service where
  matching : Value → List Message
  mailbox : List Message
  labels : List Label
  sentId : String

/-- Models the remote `users().messages().list(userId="me", q=query,
maxResults=max_results)` call: the remote returns at most `maxResults`
matches of the query, first page only.  (A non-integer `maxResults` is
outside the schema; the remote's behavior there is not modelled.) -/
def messagesList (svc : Service) (q : Value) (maxResults : Value) : List Message :=
  match maxResults with
  | .int n => (svc.matching q).take n.toNat
  | .str _ => svc.matching q

/-- The deserialized state of the token file, when the file exists. -/
structure TokenState where
  valid : Bool
  expired : Bool
  hasRefreshToken : Bool
deriving DecidableEq

/-- The environment `get_gmail_service` runs against: the token file (absent
or deserialized), whether the credentials file exists, whether the remote
accepts a refresh, the credentials path (for the error message), and the
remote service a successful session talks to. -/
structure Env where
  tokenFile : Option TokenState
  credsFileExists : Bool
  refreshOk : Bool
  credentialsPath : String
  service : Service

/-- Embeds `get_gmail_service` (server.py:28-52): load credentials from the
token file if present; if absent or invalid, refresh when expired with a
refresh token (a network round-trip), otherwise run the interactive
authorization flow — failing with `FileNotFoundError` first when the
credentials file is missing — and write the token file after either;
finally build the service.  Returns the events performed and the result. -/
def get_gmail_service (env : Env) : List Event × Except Err Service :=
  match env.tokenFile with
  | some ts =>
    if ts.valid then ([], .ok env.service)
    else if ts.expired && ts.hasRefreshToken then
      if env.refreshOk then ([.refreshCall, .tokenWrite], .ok env.service)
      else ([.refreshCall], .error .authExpiredError)
    else if env.credsFileExists then ([.authFlow, .tokenWrite], .ok env.service)
    else ([], .error (.configurationError ("Credentials file not found at " ++
      env.credentialsPath ++ ". Please download it from Google Cloud Console.")))
  | none =>
    if env.credsFileExists then ([.authFlow, .tokenWrite], .ok env.service)
    else ([], .error (.configurationError ("Credentials file not found at " ++
      env.credentialsPath ++ ". Please download it from Google Cloud Console.")))

/-! ## The four tool handlers -/

/-- The `headers = {h["name"]: h["value"] for h in ...}` dictionary
comprehension followed by `headers.get(k, d)`: on duplicate names the later
entry overwrites the earlier one, so lookup finds the last occurrence. -/
def headerGetD (hs : List Header) (k d : String) : String :=
  match hs.reverse.find? (fun h => h.name == k) with
  | some h => h.value
  | none => d

/-- One per-message output block of `_search_emails` (server.py:164-170). -/
def search_block (m : Message) : String :=
  "ID: " ++ m.id ++
  "\nFrom: " ++ headerGetD m.payload.headers "From" "Unknown" ++
  "\nSubject: " ++ headerGetD m.payload.headers "Subject" "No Subject" ++
  "\nDate: " ++ headerGetD m.payload.headers "Date" "Unknown" ++
  "\n---"

/-- Embeds `_search_emails` (server.py:142-172): direct access to
`arguments["query"]` (KeyError if absent), `arguments.get("max_results", 10)`,
one listing call capped at `max_results`, then one metadata fetch per
returned message; "No messages found." when the listing is empty, otherwise
the newline-joined blocks. -/
def _search_emails (svc : Service) (args : Args) : List Event × Except Err String :=
  match args.lookup "query" with
  | none => ([], .error (.missingArgumentError "query"))
  | some query =>
    let max_results := (args.lookup "max_results").getD (.int 10)
    let messages := messagesList svc query max_results
    if messages.isEmpty then ([.mailList query], .ok "No messages found.")
    else ([.mailList query] ++ messages.map (fun m => .mailGet m.id),
          .ok (String.intercalate "\n" (messages.map search_block)))

/-- Decodes a body `data` field (server.py:188/191):
`base64.urlsafe_b64decode(data).decode("utf-8")`; either failure is an
unguarded runtime fault. -/
def decode_body_data (d : String) : Except Err String :=
  match b64urlDecode d.data with
  | none => .error (.decodeError "binascii")
  | some bs =>
    match utf8Decode bs with
    | none => .error (.decodeError "utf-8")
    | some cps => .ok (strOfCodes cps)

/-- Embeds the body extraction of `_read_email` (server.py:184-191):
if the payload has a `parts` array, decode the first part whose `mimeType`
is `text/plain` (depth one only — nested parts are never visited, and the
part's `body`/`data` keys are accessed directly); with no `parts` array,
fall back to the top-level `body.data` when present; otherwise the body
stays the empty string. -/
def extract_body (p : Payload) : Except Err String :=
  match p.parts with
  | some parts =>
    match parts.find? (fun q => q.mimeType == "text/plain") with
    | some q =>
      match q.body with
      | some (some d) => decode_body_data d
      | some none => .error (.missingArgumentError "data")
      | none => .error (.missingArgumentError "body")
    | none => .ok ""
  | none =>
    match p.body with
    | some (some d) => decode_body_data d
    | _ => .ok ""

/-- The output block of `_read_email` (server.py:193-199): headers with
defaults, a blank line, then the body. -/
def read_format (m : Message) (body : String) : String :=
  "From: " ++ headerGetD m.payload.headers "From" "Unknown" ++
  "\nTo: " ++ headerGetD m.payload.headers "To" "Unknown" ++
  "\nSubject: " ++ headerGetD m.payload.headers "Subject" "No Subject" ++
  "\nDate: " ++ headerGetD m.payload.headers "Date" "Unknown" ++
  "\n\n" ++ body

/-- Embeds `_read_email` (server.py:175-201): direct access to
`arguments["message_id"]`, one full-format fetch (a remote error if the id
resolves to no message, and ids are strings), then header formatting and
body extraction. -/
def _read_email (svc : Service) (args : Args) : List Event × Except Err String :=
  match args.lookup "message_id" with
  | none => ([], .error (.missingArgumentError "message_id"))
  | some (.int _) => ([], .error (.remoteServiceError "invalid message id"))
  | some (.str message_id) =>
    match svc.mailbox.find? (fun m => m.id == message_id) with
    | none => ([.mailGet message_id], .error (.remoteServiceError "message not found"))
    | some m =>
      match extract_body m.payload with
      | .error e => ([.mailGet message_id], .error e)
      | .ok b => ([.mailGet message_id], .ok (read_format m b))

/-- Embeds `_send_email` (server.py:204-213): `MIMEText(arguments["body"])`
(KeyError if absent, a type fault if not a string), the `to` and `subject`
header assignments (KeyError if absent), base64url-encoding of the
serialized bytes, one send call carrying the raw payload, and the success
text with the remote-assigned id. -/
def _send_email (svc : Service) (args : Args) : List Event × Except Err String :=
  match args.lookup "body" with
  | none => ([], .error (.missingArgumentError "body"))
  | some (.int _) => ([], .error (.typeError "MIMEText payload must be a string"))
  | some (.str body) =>
    match args.lookup "to" with
    | none => ([], .error (.missingArgumentError "to"))
    | some toValue =>
      match args.lookup "subject" with
      | none => ([], .error (.missingArgumentError "subject"))
      | some subjectValue =>
        match toValue, subjectValue with
        | .str toAddr, .str subject =>
          let raw := b64urlEncode (mime_as_bytes toAddr subject body)
          ([.mailSend raw],
           .ok ("Email sent successfully. Message ID: " ++ svc.sentId))
        | _, _ => ([], .error (.typeError "header values must be strings"))

/-- Embeds `_list_labels` (server.py:216-228): one labels listing call;
"No labels found." when empty, otherwise the header lines and one
`- {name} (ID: {id})` line per label in remote order. -/
def _list_labels (svc : Service) : List Event × Except Err String :=
  ([.mailLabels],
   if svc.labels.isEmpty then .ok "No labels found."
   else .ok (String.intercalate "\n" ("Gmail Labels:" :: "---" ::
     svc.labels.map (fun l => "- " ++ l.name ++ " (ID: " ++ l.id ++ ")"))))

/-- Embeds `call_tool` (server.py:125-139): `get_gmail_service()` runs
first, unconditionally; then the name is compared against the four
registered tool names and routed, and any other name raises
`ValueError(f"Unknown tool: {name}")`. -/
def call_tool (env : Env) (name : String) (args : Args) :
    List Event × Except Err String :=
  match get_gmail_service env with
  | (tr, .error e) => (tr, .error e)
  | (tr, .ok service) =>
    if name = "gmail_search" then
      let r := _search_emails service args
      (tr ++ r.1, r.2)
    else if name = "gmail_read" then
      let r := _read_email service args
      (tr ++ r.1, r.2)
    else if name = "gmail_send" then
      let r := _send_email service args
      (tr ++ r.1, r.2)
    else if name = "gmail_list_labels" then
      let r := _list_labels service
      (tr ++ r.1, r.2)
    else (tr, .error (.unknownToolError name))

/-! ## The tool registry -/

/-- One property of a JSON-schema `properties` object. -/
structure PropSchema where
  type : String
  description : String
  default : Option Value := none
deriving DecidableEq

/-- An `inputSchema` object: `type`, `properties`, and the optional
`required` array (`none` when the key is absent, as for `gmail_list_labels`). -/
structure InputSchema where
  type : String
  properties : List (String × PropSchema)
  required : Option (List String) := none
deriving DecidableEq

/-- A declared tool: name, description, input schema. -/
structure Tool where
  name : String
  description : String
  inputSchema : InputSchema
deriving DecidableEq

/-- Embeds `list_tools` (server.py:55-122) verbatim. -/
def list_tools : List Tool :=
  [{ name := "gmail_search",
     description := "Search for emails in Gmail using Gmail's search syntax",
     inputSchema :=
       { type := "object",
         properties :=
           [("query",
             { type := "string",
               description := "Gmail search query (e.g., 'from:example@gmail.com', 'subject:meeting', 'is:unread')" }),
            ("max_results",
             { type := "integer",
               description := "Maximum number of results to return (default: 10)",
               default := some (.int 10) })],
         required := some ["query"] } },
   { name := "gmail_read",
     description := "Read the full content of a specific email by its ID",
     inputSchema :=
       { type := "object",
         properties :=
           [("message_id",
             { type := "string",
               description := "The ID of the email message to read" })],
         required := some ["message_id"] } },
   { name := "gmail_send",
     description := "Send an email through Gmail",
     inputSchema :=
       { type := "object",
         properties :=
           [("to",
             { type := "string", description := "Recipient email address" }),
            ("subject",
             { type := "string", description := "Email subject" }),
            ("body",
             { type := "string", description := "Email body content" })],
         required := some ["to", "subject", "body"] } },
   { name := "gmail_list_labels",
     description := "List all labels in the Gmail account",
     inputSchema := { type := "object", properties := [] } }]

/-! ## Dispatch lemmas -/

theorem get_gmail_service_pair_ok (env : Env) (svc : Service)
    (hsvc : (get_gmail_service env).2 = .ok svc) :
    get_gmail_service env = ((get_gmail_service env).1, Except.ok svc) := by
  rw [← hsvc]

theorem call_tool_ok (env : Env) (svc : Service) (name : String) (args : Args)
    (hsvc : (get_gmail_service env).2 = .ok svc) :
    call_tool env name args =
      (if name = "gmail_search" then
        ((get_gmail_service env).1 ++ (_search_emails svc args).1, (_search_emails svc args).2)
      else if name = "gmail_read" then
        ((get_gmail_service env).1 ++ (_read_email svc args).1, (_read_email svc args).2)
      else if name = "gmail_send" then
        ((get_gmail_service env).1 ++ (_send_email svc args).1, (_send_email svc args).2)
      else if name = "gmail_list_labels" then
        ((get_gmail_service env).1 ++ (_list_labels svc).1, (_list_labels svc).2)
      else ((get_gmail_service env).1, .error (.unknownToolError name))) := by
  rw [call_tool, get_gmail_service_pair_ok env svc hsvc]

theorem call_tool_credential_error (env : Env) (name : String) (args : Args) (e : Err)
    (herr : (get_gmail_service env).2 = .error e) :
    call_tool env name args = ((get_gmail_service env).1, .error e) := by
  have hg : get_gmail_service env = ((get_gmail_service env).1, Except.error e) := by
    rw [← herr]
  rw [call_tool, hg]

theorem get_gmail_service_no_mail (env : Env) :
    ∀ ev ∈ (get_gmail_service env).1, ev.isMail = false := by
  intro ev hev
  rcases henv : env.tokenFile with _ | ts <;>
    simp only [get_gmail_service, henv] at hev <;>
    split_ifs at hev <;>
    simp only [List.mem_cons, List.not_mem_nil, or_false] at hev <;>
    rcases hev with rfl | rfl <;> rfl

/-! ## Concrete fixtures used by witnesses -/

/-- An empty remote mailbox. -/
def demoService : Service :=
  { matching := fun _ => [], mailbox := [], labels := [], sentId := "msg-001" }

/-- An environment with a valid token on disk (credential resolution
succeeds without any side effect). -/
def envValid : Env :=
  { tokenFile := some { valid := true, expired := false, hasRefreshToken := false },
    credsFileExists := true, refreshOk := true,
    credentialsPath := "credentials.json", service := demoService }

theorem envValid_session : get_gmail_service envValid = ([], .ok demoService) := rfl

/-! ## C3: the tool registry -/

/-- C3: `list_tools` returns exactly four tool specifications, in the stable
order search, read, send, list_labels, each with a non-empty description;
the search schema requires `query` and gives `max_results` default `10`, the
read schema requires `message_id`, the send schema requires `to`, `subject`
and `body`, and the list_labels schema declares no fields. -/
theorem list_tools_spec :
    list_tools.map Tool.name =
      ["gmail_search", "gmail_read", "gmail_send", "gmail_list_labels"] ∧
    (∀ t ∈ list_tools, t.description ≠ "") ∧
    list_tools.map (fun t => t.inputSchema.required) =
      [some ["query"], some ["message_id"], some ["to", "subject", "body"], none] ∧
    list_tools.map (fun t => t.inputSchema.properties.map (fun p => (p.1, p.2.default))) =
      [[("query", none), ("max_results", some (.int 10))],
       [("message_id", none)],
       [("to", none), ("subject", none), ("body", none)],
       []] := by
  refine ⟨rfl, ?_, rfl, rfl⟩
  decide

/-! ## C4: missing token and credentials files -/

/-- C4: with no token file and no credentials file, `get_gmail_service`
fails with the configuration error (`FileNotFoundError`) and performs no
event at all — in particular no refresh round-trip, no authorization
exchange and no mail-service call. -/
theorem get_session_config_error (env : Env)
    (htok : env.tokenFile = none) (hcred : env.credsFileExists = false) :
    get_gmail_service env =
      ([], .error (.configurationError ("Credentials file not found at " ++
        env.credentialsPath ++ ". Please download it from Google Cloud Console."))) := by
  simp [get_gmail_service, htok, hcred]

/-- An environment with neither a token file nor a credentials file. -/
def envNoCreds : Env :=
  { tokenFile := none, credsFileExists := false, refreshOk := true,
    credentialsPath := "credentials.json", service := demoService }

theorem get_session_config_error_witness :
    envNoCreds.tokenFile = none ∧ envNoCreds.credsFileExists = false ∧
    get_gmail_service envNoCreds =
      ([], .error (.configurationError ("Credentials file not found at " ++
        envNoCreds.credentialsPath ++ ". Please download it from Google Cloud Console."))) :=
  ⟨rfl, rfl, get_session_config_error envNoCreds rfl rfl⟩

/-! ## C6: label listing -/

/-- C6: `gmail_list_labels` returns exactly "No labels found." when the
remote listing is empty; otherwise the header line "Gmail Labels:", the
separator "---", and one `- {name} (ID: {id})` line per label, in remote
listing order. -/
theorem list_labels_spec (env : Env) (svc : Service) (args : Args)
    (hsvc : (get_gmail_service env).2 = .ok svc) :
    (svc.labels = [] →
      (call_tool env "gmail_list_labels" args).2 = .ok "No labels found.") ∧
    (svc.labels ≠ [] →
      (call_tool env "gmail_list_labels" args).2 =
        .ok (String.intercalate "\n" ("Gmail Labels:" :: "---" ::
          svc.labels.map (fun l => "- " ++ l.name ++ " (ID: " ++ l.id ++ ")")))) := by
  rw [call_tool_ok env svc _ args hsvc]
  constructor
  · intro hl
    simp [_list_labels, hl]
  · intro hl
    simp [_list_labels, List.isEmpty_iff, hl]

/-- A service with two labels, in remote order. -/
def labelService : Service :=
  { matching := fun _ => [], mailbox := [],
    labels := [{ id := "INBOX", name := "Inbox" }, { id := "Label_7", name := "Work" }],
    sentId := "msg-001" }

/-- The valid-token environment over `labelService`. -/
def envLabels : Env :=
  { tokenFile := some { valid := true, expired := false, hasRefreshToken := false },
    credsFileExists := true, refreshOk := true,
    credentialsPath := "credentials.json", service := labelService }

theorem list_labels_spec_witness :
    (get_gmail_service envLabels).2 = .ok labelService ∧
    (labelService.labels ≠ [] →
      (call_tool envLabels "gmail_list_labels" []).2 =
        .ok (String.intercalate "\n" ("Gmail Labels:" :: "---" ::
          labelService.labels.map (fun l => "- " ++ l.name ++ " (ID: " ++ l.id ++ ")")))) :=
  ⟨rfl, (list_labels_spec envLabels labelService [] rfl).2⟩

/-! ## C1: unknown tool names -/

/-- An environment whose token is expired but refreshable: credential
resolution performs a refresh network round-trip and a token-file write. -/
def envRefresh : Env :=
  { tokenFile := some { valid := false, expired := true, hasRefreshToken := true },
    credsFileExists := true, refreshOk := true,
    credentialsPath := "credentials.json", service := demoService }

/-- C1 counterexample: calling the unregistered tool name "bogus" does fail
with the unknown-tool error, but only after `get_gmail_service()` has run:
with an expired-but-refreshable token a credential-resolution refresh
round-trip (and a token-file write) takes place before the name is ever
checked, contradicting "without any credential-resolution or remote
round-trip taking place". -/
theorem call_tool_unknown_counterexample :
    (call_tool envRefresh "bogus" []).2 = .error (.unknownToolError "bogus") ∧
    Event.refreshCall ∈ (call_tool envRefresh "bogus" []).1 :=
  ⟨rfl, by decide⟩

/-- C1 (amended): a call with an unregistered tool name never performs any
Mail Client Facade call, and — whenever credential resolution succeeds —
fails with `UnknownToolError`; but `get_gmail_service()` runs before the
name check, so credential resolution (possibly including a refresh
round-trip or the interactive flow) does take place first, and a credential
failure is surfaced instead of the unknown-tool error. -/
theorem call_tool_unknown_rejected (env : Env) (name : String) (args : Args)
    (hname : name ∉ (["gmail_search", "gmail_read", "gmail_send",
      "gmail_list_labels"] : List String)) :
    (∀ ev ∈ (call_tool env name args).1, ev.isMail = false) ∧
    (∀ svc : Service, (get_gmail_service env).2 = .ok svc →
      (call_tool env name args).2 = .error (.unknownToolError name)) := by
  simp only [List.mem_cons, List.not_mem_nil, or_false, not_or] at hname
  obtain ⟨hn1, hn2, hn3, hn4⟩ := hname
  constructor
  · intro ev hev
    rcases hr : (get_gmail_service env).2 with e | svc
    · rw [call_tool_credential_error env name args e hr] at hev
      exact get_gmail_service_no_mail env ev hev
    · rw [call_tool_ok env svc name args hr] at hev
      simp only [if_neg hn1, if_neg hn2, if_neg hn3, if_neg hn4] at hev
      exact get_gmail_service_no_mail env ev hev
  · intro svc hsvc
    rw [call_tool_ok env svc name args hsvc]
    simp [if_neg hn1, if_neg hn2, if_neg hn3, if_neg hn4]

theorem call_tool_unknown_rejected_witness :
    ("frobnicate" ∉ (["gmail_search", "gmail_read", "gmail_send",
      "gmail_list_labels"] : List String)) ∧
    (∀ ev ∈ (call_tool envValid "frobnicate" []).1, ev.isMail = false) ∧
    (∀ svc : Service, (get_gmail_service envValid).2 = .ok svc →
      (call_tool envValid "frobnicate" []).2 =
        .error (.unknownToolError "frobnicate")) :=
  ⟨by decide,
   (call_tool_unknown_rejected envValid "frobnicate" [] (by decide)).1,
   (call_tool_unknown_rejected envValid "frobnicate" [] (by decide)).2⟩

/-! ## C9: missing required arguments -/

/-- C9: for each registered tool, the dispatcher's direct field access fails
the call with `MissingArgumentError` when a required field is absent:
`query` for search, `message_id` for read, and each of `body`, `to`,
`subject` for send (in the access order of the handler). Each call is a
pure function of its own name and arguments, so only that call fails. -/
theorem missing_argument_spec (env : Env) (svc : Service) (args : Args)
    (hsvc : (get_gmail_service env).2 = .ok svc) :
    (args.lookup "query" = none →
      (call_tool env "gmail_search" args).2 = .error (.missingArgumentError "query")) ∧
    (args.lookup "message_id" = none →
      (call_tool env "gmail_read" args).2 = .error (.missingArgumentError "message_id")) ∧
    (args.lookup "body" = none →
      (call_tool env "gmail_send" args).2 = .error (.missingArgumentError "body")) ∧
    (∀ b : String, args.lookup "body" = some (.str b) → args.lookup "to" = none →
      (call_tool env "gmail_send" args).2 = .error (.missingArgumentError "to")) ∧
    (∀ b : String, ∀ tv : Value, args.lookup "body" = some (.str b) →
      args.lookup "to" = some tv → args.lookup "subject" = none →
      (call_tool env "gmail_send" args).2 = .error (.missingArgumentError "subject")) := by
  refine ⟨?_, ?_, ?_, ?_, ?_⟩
  · intro hq
    rw [call_tool_ok env svc _ args hsvc]
    simp [_search_emails, hq]
  · intro hm
    rw [call_tool_ok env svc _ args hsvc]
    simp [_read_email, hm]
  · intro hb
    rw [call_tool_ok env svc _ args hsvc]
    simp [_send_email, hb]
  · intro b hb ht
    rw [call_tool_ok env svc _ args hsvc]
    simp [_send_email, hb, ht]
  · intro b tv hb ht hs
    rw [call_tool_ok env svc _ args hsvc]
    simp [_send_email, hb, ht, hs]

theorem missing_argument_spec_witness :
    (get_gmail_service envValid).2 = .ok demoService ∧
    (call_tool envValid "gmail_search" []).2 = .error (.missingArgumentError "query") ∧
    (call_tool envValid "gmail_read" []).2 = .error (.missingArgumentError "message_id") ∧
    (call_tool envValid "gmail_send" []).2 = .error (.missingArgumentError "body") ∧
    (call_tool envValid "gmail_send" [("body", .str "hi")]).2 =
      .error (.missingArgumentError "to") ∧
    (call_tool envValid "gmail_send" [("body", .str "hi"), ("to", .str "a@b.c")]).2 =
      .error (.missingArgumentError "subject") :=
  ⟨rfl,
   (missing_argument_spec envValid demoService [] rfl).1 rfl,
   (missing_argument_spec envValid demoService [] rfl).2.1 rfl,
   (missing_argument_spec envValid demoService [] rfl).2.2.1 rfl,
   (missing_argument_spec envValid demoService [("body", .str "hi")] rfl).2.2.2.1
     "hi" rfl rfl,
   (missing_argument_spec envValid demoService
     [("body", .str "hi"), ("to", .str "a@b.c")] rfl).2.2.2.2
     "hi" (.str "a@b.c") rfl rfl rfl⟩

/-! ## C5: search results -/

/-- C5: with a query given, search returns exactly "No messages found."
when the (capped) listing is empty; otherwise the newline-joined
`ID`, `From`, `Subject`, `Date`, `---` block per matched message; the number
of blocks is the remote match count capped at `max_results`; and an absent
`max_results` defaults to 10. -/
theorem search_spec (env : Env) (svc : Service) (args : Args) (q mr : Value)
    (hsvc : (get_gmail_service env).2 = .ok svc)
    (hq : args.lookup "query" = some q)
    (hmr : mr = (args.lookup "max_results").getD (.int 10)) :
    (messagesList svc q mr = [] →
      (call_tool env "gmail_search" args).2 = .ok "No messages found.") ∧
    (messagesList svc q mr ≠ [] →
      (call_tool env "gmail_search" args).2 =
        .ok (String.intercalate "\n" ((messagesList svc q mr).map search_block))) ∧
    (∀ k : Int, mr = .int k →
      (messagesList svc q mr).length = min k.toNat (svc.matching q).length) ∧
    (args.lookup "max_results" = none → mr = .int 10) := by
  have hcall : (call_tool env "gmail_search" args).2 = (_search_emails svc args).2 := by
    rw [call_tool_ok env svc _ args hsvc]; simp
  refine ⟨?_, ?_, ?_, ?_⟩
  · intro hempty
    rw [hcall]
    simp only [_search_emails, hq, ← hmr, hempty]
    rfl
  · intro hne
    rw [hcall]
    simp only [_search_emails, hq, ← hmr]
    simp [List.isEmpty_iff, hne]
  · intro k hk
    rw [hk, messagesList, List.length_take]
  · intro hnone
    rw [hmr, hnone]
    rfl

/-- A service whose remote search matches three messages. -/
def searchService : Service :=
  { matching := fun _ =>
      [{ id := "m1", payload := .mk "text/plain" [] none none },
       { id := "m2", payload := .mk "text/plain" [] none none },
       { id := "m3", payload := .mk "text/plain" [] none none }],
    mailbox := [], labels := [], sentId := "s" }

/-- The valid-token environment over `searchService`. -/
def envSearch : Env :=
  { tokenFile := some { valid := true, expired := false, hasRefreshToken := false },
    credsFileExists := true, refreshOk := true,
    credentialsPath := "credentials.json", service := searchService }

theorem search_spec_witness :
    (get_gmail_service envSearch).2 = .ok searchService ∧
    ([("query", .str "is:unread"), ("max_results", .int 2)] : Args).lookup "query" =
      some (.str "is:unread") ∧
    (messagesList searchService (.str "is:unread") (.int 2) ≠ [] →
      (call_tool envSearch "gmail_search"
        [("query", .str "is:unread"), ("max_results", .int 2)]).2 =
        .ok (String.intercalate "\n"
          ((messagesList searchService (.str "is:unread") (.int 2)).map search_block))) ∧
    (∀ k : Int, (.int 2 : Value) = .int k →
      (messagesList searchService (.str "is:unread") (.int 2)).length =
        min k.toNat (searchService.matching (.str "is:unread")).length) :=
  ⟨rfl, rfl,
   (search_spec envSearch searchService
     [("query", .str "is:unread"), ("max_results", .int 2)]
     (.str "is:unread") (.int 2) rfl rfl rfl).2.1,
   (search_spec envSearch searchService
     [("query", .str "is:unread"), ("max_results", .int 2)]
     (.str "is:unread") (.int 2) rfl rfl rfl).2.2.1⟩

/-! ## C10: missing headers -/

theorem headerGetD_of_not_mem (hs : List Header) (k d : String)
    (h : ∀ x ∈ hs, x.name ≠ k) : headerGetD hs k d = d := by
  rw [headerGetD]
  have hnone : hs.reverse.find? (fun x => x.name == k) = none := by
    rw [List.find?_eq_none]
    intro x hx
    simp [h x (List.mem_reverse.1 hx)]
  rw [hnone]

/-- C10: messages lacking From/Subject/Date (and To, for read) headers do
not fail search or read: each output substitutes "Unknown" for a missing
From or Date, "No Subject" for a missing Subject, and (for read) "Unknown"
for a missing To. -/
theorem missing_headers_defaults (env : Env) (svc : Service)
    (hsvc : (get_gmail_service env).2 = .ok svc) :
    (∀ (argsS : Args) (q : Value) (m : Message), argsS.lookup "query" = some q →
      messagesList svc q ((argsS.lookup "max_results").getD (.int 10)) = [m] →
      (∀ h ∈ m.payload.headers,
        h.name ≠ "From" ∧ h.name ≠ "Subject" ∧ h.name ≠ "Date") →
      (call_tool env "gmail_search" argsS).2 =
        .ok ("ID: " ++ m.id ++
          "\nFrom: Unknown\nSubject: No Subject\nDate: Unknown\n---")) ∧
    (∀ (argsR : Args) (mid : String) (m : Message) (b : String),
      argsR.lookup "message_id" = some (.str mid) →
      svc.mailbox.find? (fun x => x.id == mid) = some m →
      extract_body m.payload = .ok b →
      (∀ h ∈ m.payload.headers,
        h.name ≠ "From" ∧ h.name ≠ "To" ∧ h.name ≠ "Subject" ∧ h.name ≠ "Date") →
      (call_tool env "gmail_read" argsR).2 =
        .ok ("From: Unknown\nTo: Unknown\nSubject: No Subject\nDate: Unknown\n\n" ++ b)) := by
  constructor
  · intro argsS q m hq hone hhdr
    have hcall : (call_tool env "gmail_search" argsS).2 = (_search_emails svc argsS).2 := by
      rw [call_tool_ok env svc _ argsS hsvc]; simp
    rw [hcall]
    simp only [_search_emails, hq, hone]
    have hFrom := headerGetD_of_not_mem m.payload.headers "From" "Unknown"
      (fun x hx => (hhdr x hx).1)
    have hSubj := headerGetD_of_not_mem m.payload.headers "Subject" "No Subject"
      (fun x hx => (hhdr x hx).2.1)
    have hDate := headerGetD_of_not_mem m.payload.headers "Date" "Unknown"
      (fun x hx => (hhdr x hx).2.2)
    simp [search_block, hFrom, hSubj, hDate, String.intercalate,
      String.intercalate.go, String.append_assoc]
  · intro argsR mid m b hmid hfind hb hhdr
    have hcall : (call_tool env "gmail_read" argsR).2 = (_read_email svc argsR).2 := by
      rw [call_tool_ok env svc _ argsR hsvc]; simp
    rw [hcall]
    simp only [_read_email, hmid, hfind, hb]
    have hFrom := headerGetD_of_not_mem m.payload.headers "From" "Unknown"
      (fun x hx => (hhdr x hx).1)
    have hTo := headerGetD_of_not_mem m.payload.headers "To" "Unknown"
      (fun x hx => (hhdr x hx).2.1)
    have hSubj := headerGetD_of_not_mem m.payload.headers "Subject" "No Subject"
      (fun x hx => (hhdr x hx).2.2.1)
    have hDate := headerGetD_of_not_mem m.payload.headers "Date" "Unknown"
      (fun x hx => (hhdr x hx).2.2.2)
    simp [read_format, hFrom, hTo, hSubj, hDate, String.append_assoc]

/-- A message carrying no headers at all. -/
def bareMsg : Message := { id := "m1", payload := .mk "text/plain" [] none none }

/-- A service whose search and read both resolve to the bare message. -/
def bareService : Service :=
  { matching := fun _ => [bareMsg], mailbox := [bareMsg], labels := [], sentId := "s" }

/-- The valid-token environment over `bareService`. -/
def envBare : Env :=
  { tokenFile := some { valid := true, expired := false, hasRefreshToken := false },
    credsFileExists := true, refreshOk := true,
    credentialsPath := "credentials.json", service := bareService }

theorem missing_headers_defaults_witness :
    (get_gmail_service envBare).2 = .ok bareService ∧
    (call_tool envBare "gmail_search" [("query", .str "x")]).2 =
      .ok ("ID: " ++ bareMsg.id ++
        "\nFrom: Unknown\nSubject: No Subject\nDate: Unknown\n---") ∧
    (call_tool envBare "gmail_read" [("message_id", .str "m1")]).2 =
      .ok ("From: Unknown\nTo: Unknown\nSubject: No Subject\nDate: Unknown\n\n" ++ "") :=
  ⟨rfl,
   (missing_headers_defaults envBare bareService rfl).1
     [("query", .str "x")] (.str "x") bareMsg rfl rfl
     (by intro h hh; simp [bareMsg, Payload.headers] at hh),
   (missing_headers_defaults envBare bareService rfl).2
     [("message_id", .str "m1")] "m1" bareMsg "" rfl rfl rfl
     (by intro h hh; simp [bareMsg, Payload.headers] at hh)⟩

/-! ## C2: body extraction of read -/

/-- C2: `read` extracts the body as follows.  With a `parts` array, the body
is the base64url- and UTF-8-decoded `data` of the first part whose
`mimeType` is `text/plain`, scanning depth one only (the quantification is
over arbitrary part lists, including ones whose nested parts hold
`text/plain` content — those are never consulted); with no `parts` array it
falls back to the top-level body payload when present; and when no
plaintext-capable body is found the body is the empty string and the call
still succeeds. -/
theorem read_body_extraction (env : Env) (svc : Service) (args : Args)
    (mid : String) (m : Message)
    (hsvc : (get_gmail_service env).2 = .ok svc)
    (hargs : args.lookup "message_id" = some (.str mid))
    (hfind : svc.mailbox.find? (fun x => x.id == mid) = some m) :
    (∀ (parts : List Payload) (p : Payload) (d s : String),
      m.payload.parts = some parts →
      parts.find? (fun x => x.mimeType == "text/plain") = some p →
      p.body = some (some d) → decode_body_data d = .ok s →
      (call_tool env "gmail_read" args).2 = .ok (read_format m s)) ∧
    (∀ parts : List Payload, m.payload.parts = some parts →
      parts.find? (fun x => x.mimeType == "text/plain") = none →
      (call_tool env "gmail_read" args).2 = .ok (read_format m "")) ∧
    (∀ d s : String, m.payload.parts = none → m.payload.body = some (some d) →
      decode_body_data d = .ok s →
      (call_tool env "gmail_read" args).2 = .ok (read_format m s)) ∧
    (m.payload.parts = none → (m.payload.body = none ∨ m.payload.body = some none) →
      (call_tool env "gmail_read" args).2 = .ok (read_format m "")) := by
  have hcall : (call_tool env "gmail_read" args).2 = (_read_email svc args).2 := by
    rw [call_tool_ok env svc _ args hsvc]; simp
  refine ⟨?_, ?_, ?_, ?_⟩
  · intro parts p d s hp hfp hb hdec
    rw [hcall]
    simp [_read_email, hargs, hfind, extract_body, hp, hfp, hb, hdec]
  · intro parts hp hfp
    rw [hcall]
    simp [_read_email, hargs, hfind, extract_body, hp, hfp]
  · intro d s hp hb hdec
    rw [hcall]
    simp [_read_email, hargs, hfind, extract_body, hp, hb, hdec]
  · intro hp hb
    rw [hcall]
    rcases hb with hb | hb <;>
      simp [_read_email, hargs, hfind, extract_body, hp, hb]

/-- A `text/plain` part whose `data` is the base64url encoding of "hi". -/
def textPart : Payload := .mk "text/plain" [] (some (some "aGk=")) none

/-- A message whose payload has a depth-one `parts` array: an HTML part
first, then the plaintext part. -/
def msgParts : Message :=
  { id := "r1",
    payload := .mk "multipart/mixed" [] none
      (some [.mk "text/html" [] (some (some "PGI+")) none, textPart]) }

/-- A message whose only `text/plain` content is nested two levels deep. -/
def msgNested : Message :=
  { id := "r2",
    payload := .mk "multipart/mixed" [] none
      (some [.mk "multipart/alternative" [] none (some [textPart])]) }

/-- A mailbox holding both read fixtures. -/
def readService : Service :=
  { matching := fun _ => [], mailbox := [msgParts, msgNested], labels := [],
    sentId := "s" }

/-- The valid-token environment over `readService`. -/
def envRead : Env :=
  { tokenFile := some { valid := true, expired := false, hasRefreshToken := false },
    credsFileExists := true, refreshOk := true,
    credentialsPath := "credentials.json", service := readService }

theorem read_body_extraction_witness :
    (get_gmail_service envRead).2 = .ok readService ∧
    decode_body_data "aGk=" = .ok "hi" ∧
    (call_tool envRead "gmail_read" [("message_id", .str "r1")]).2 =
      .ok (read_format msgParts "hi") ∧
    (call_tool envRead "gmail_read" [("message_id", .str "r2")]).2 =
      .ok (read_format msgNested "") :=
  ⟨rfl, rfl,
   (read_body_extraction envRead readService [("message_id", .str "r1")] "r1"
     msgParts rfl rfl rfl).1
     [.mk "text/html" [] (some (some "PGI+")) none, textPart] textPart "aGk=" "hi"
     rfl rfl rfl rfl,
   (read_body_extraction envRead readService [("message_id", .str "r2")] "r2"
     msgNested rfl rfl rfl).2.1
     [.mk "multipart/alternative" [] none (some [textPart])] rfl rfl⟩

/-! ## C8: top-level body round trip -/

theorem decode_body_data_encode (t : String) :
    decode_body_data (String.mk (b64urlEncode (utf8Encode (strCodes t)))) = .ok t := by
  have hbytes : ∀ b ∈ utf8Encode (strCodes t), b < 256 :=
    utf8Encode_lt_256 _ (strCodes_lt t)
  have hdata : (String.mk (b64urlEncode (utf8Encode (strCodes t)))).data =
      b64urlEncode (utf8Encode (strCodes t)) := rfl
  simp [decode_body_data, hdata, b64url_roundtrip _ hbytes,
    utf8_roundtrip _ (strCodes_isScalar t), strOfCodes_strCodes]

/-- C8: for every text, reading a message whose payload has no `parts` array
and whose top-level body `data` is the URL-safe base64 encoding of the
UTF-8 bytes of that text surfaces exactly that text as the body. -/
theorem read_toplevel_roundtrip (env : Env) (svc : Service) (args : Args)
    (mid : String) (m : Message) (text : String)
    (hsvc : (get_gmail_service env).2 = .ok svc)
    (hargs : args.lookup "message_id" = some (.str mid))
    (hfind : svc.mailbox.find? (fun x => x.id == mid) = some m)
    (hparts : m.payload.parts = none)
    (hbody : m.payload.body =
      some (some (String.mk (b64urlEncode (utf8Encode (strCodes text)))))) :
    (call_tool env "gmail_read" args).2 = .ok (read_format m text) := by
  have hcall : (call_tool env "gmail_read" args).2 = (_read_email svc args).2 := by
    rw [call_tool_ok env svc _ args hsvc]; simp
  rw [hcall]
  simp [_read_email, hargs, hfind, extract_body, hparts, hbody,
    decode_body_data_encode]

/-- A message whose top-level body data encodes "hello". -/
def msgTop : Message :=
  { id := "t1",
    payload := .mk "text/plain" []
      (some (some (String.mk (b64urlEncode (utf8Encode (strCodes "hello")))))) none }

/-- A mailbox holding the top-level-body fixture. -/
def topService : Service :=
  { matching := fun _ => [], mailbox := [msgTop], labels := [], sentId := "s" }

/-- The valid-token environment over `topService`. -/
def envTop : Env :=
  { tokenFile := some { valid := true, expired := false, hasRefreshToken := false },
    credsFileExists := true, refreshOk := true,
    credentialsPath := "credentials.json", service := topService }

theorem read_toplevel_roundtrip_witness :
    (get_gmail_service envTop).2 = .ok topService ∧
    msgTop.payload.parts = none ∧
    msgTop.payload.body =
      some (some (String.mk (b64urlEncode (utf8Encode (strCodes "hello"))))) ∧
    (call_tool envTop "gmail_read" [("message_id", .str "t1")]).2 =
      .ok (read_format msgTop "hello") :=
  ⟨rfl, rfl, rfl,
   read_toplevel_roundtrip envTop topService [("message_id", .str "t1")] "t1"
     msgTop "hello" rfl rfl rfl rfl rfl⟩

/-! ## C7: send round trip -/

/-- C7: for every `to`, `subject` and `body`, send returns
"Email sent successfully. Message ID: {id}" with the remote-assigned id,
submits exactly one send call whose raw payload is the base64url encoding
of the MIME serialization, and that payload, base64url-decoded, parses back
to a MIME text message with matching `to`, `subject` and body (header
values contain no newline). -/
theorem send_roundtrip (env : Env) (svc : Service) (args : Args)
    (toAddr subject body : String)
    (hsvc : (get_gmail_service env).2 = .ok svc)
    (hb : args.lookup "body" = some (.str body))
    (ht : args.lookup "to" = some (.str toAddr))
    (hs : args.lookup "subject" = some (.str subject))
    (hto : '\n' ∉ toAddr.data) (hsub : '\n' ∉ subject.data) :
    (call_tool env "gmail_send" args).2 =
      .ok ("Email sent successfully. Message ID: " ++ svc.sentId) ∧
    (call_tool env "gmail_send" args).1 =
      (get_gmail_service env).1 ++
        [.mailSend (b64urlEncode (mime_as_bytes toAddr subject body))] ∧
    b64urlDecode (b64urlEncode (mime_as_bytes toAddr subject body)) =
      some (mime_as_bytes toAddr subject body) ∧
    mimeParse (mime_as_bytes toAddr subject body) = some (toAddr, subject, body) := by
  refine ⟨?_, ?_, ?_, ?_⟩
  · rw [call_tool_ok env svc _ args hsvc]
    simp [_send_email, hb, ht, hs]
  · rw [call_tool_ok env svc _ args hsvc]
    simp [_send_email, hb, ht, hs]
  · exact b64url_roundtrip _ (utf8Encode_lt_256 _ (strCodes_lt _))
  · exact mimeParse_mime_as_bytes toAddr subject body hto hsub

theorem send_roundtrip_witness :
    (get_gmail_service envValid).2 = .ok demoService ∧
    ('\n' ∉ "a@b.c".data) ∧ ('\n' ∉ "Greetings".data) ∧
    (call_tool envValid "gmail_send"
      [("to", .str "a@b.c"), ("subject", .str "Greetings"),
       ("body", .str "hello\nworld")]).2 =
      .ok ("Email sent successfully. Message ID: " ++ demoService.sentId) ∧
    mimeParse (mime_as_bytes "a@b.c" "Greetings" "hello\nworld") =
      some ("a@b.c", "Greetings", "hello\nworld") :=
  ⟨rfl, by decide, by decide,
   (send_roundtrip envValid demoService
     [("to", .str "a@b.c"), ("subject", .str "Greetings"),
      ("body", .str "hello\nworld")]
     "a@b.c" "Greetings" "hello\nworld" rfl rfl rfl rfl
     (by decide) (by decide)).1,
   (send_roundtrip envValid demoService
     [("to", .str "a@b.c"), ("subject", .str "Greetings"),
      ("body", .str "hello\nworld")]
     "a@b.c" "Greetings" "hello\nworld" rfl rfl rfl rfl
     (by decide) (by decide)).2.2.2⟩

end GmailMcp
